import Mathlib

/-!
Shallow embedding of the Session Token Manager of the SaaS admin backend
(`AuthService` in `auth.service.ts`, `AuditService` in `audit.service.ts`,
error classes in `types/index.ts`).  Time is modelled as milliseconds
(`Nat`, as `Date.now()`); the relational store and the Redis denylist are
explicit fields of a `DB` state record; bcrypt and JWT signing are modelled
as injective constructions with the keys kept abstract as distinct strings.
-/

deriving instance DecidableEq for Except

namespace AuthModel

/-- `UserStatus` Prisma enum (spec §3: Active/Inactive/Suspended/Pending). -/
inductive UserStatus where
  | ACTIVE
  | INACTIVE
  | SUSPENDED
  | PENDING
deriving DecidableEq, Repr

/-- `TenantStatus` Prisma enum (spec §3: Trial/Active/Suspended/Cancelled). -/
inductive TenantStatus where
  | TRIAL
  | ACTIVE
  | SUSPENDED
  | CANCELLED
deriving DecidableEq, Repr

/-- The `AppError` subclasses of `types/index.ts` that the auth flow uses.
Each carries the constructor message; the HTTP status code is recovered by
`AppError.statusCode`. -/
inductive AppError where
  | validationError (msg : String)
  | unauthorizedError (msg : String)
  | forbiddenError (msg : String)
  | conflictError (msg : String)
deriving DecidableEq, Repr

/-- `statusCode` assigned by each `AppError` subclass constructor. -/
def AppError.statusCode : AppError → Nat
  | .validationError _ => 400
  | .unauthorizedError _ => 401
  | .forbiddenError _ => 403
  | .conflictError _ => 409

/-- `JWTPayload` of `types/index.ts` (ids modelled as `Nat`). -/
structure JWTPayload where
  userId : Nat
  email : String
  role : String
  tenantId : Option Nat
deriving DecidableEq, Repr

/-- A JWT as produced by `jwt.sign(payload, key, { expiresIn })`: the payload
together with the signing key and the issued-at/expiry instants.  Signature
verification is modelled as checking the signing key. -/
structure SignedToken where
  payload : JWTPayload
  key : String
  iat : Nat
  exp : Nat
deriving DecidableEq, Repr

/-- `AuthTokens` of `types/index.ts`. -/
structure AuthTokens where
  accessToken : SignedToken
  refreshToken : SignedToken
deriving DecidableEq, Repr

/-- A `Tenant` row (fields used by the auth flow, as created by
`AuthService.register`). -/
structure Tenant where
  id : Nat
  name : String
  slug : String
  plan : String
  status : TenantStatus
  trialEndsAt : Option Nat
  maxUsers : Nat
  maxApiCalls : Nat
  maxStorage : Nat
deriving DecidableEq, Repr

/-- A `User` row (fields used by the auth flow). -/
structure User where
  id : Nat
  tenantId : Option Nat
  email : String
  passwordHash : String
  firstName : String
  lastName : String
  role : String
  status : UserStatus
  emailVerified : Bool
  failedLoginAttempts : Nat
  lockedUntil : Option Nat
  lastLoginAt : Option Nat
  lastLoginIp : Option String
deriving DecidableEq, Repr

/-- `UserWithoutPassword`: the `User` fields minus `passwordHash`, as built
by the destructuring `const { passwordHash, ...userWithoutPassword } = user`. -/
structure UserWithoutPassword where
  id : Nat
  tenantId : Option Nat
  email : String
  firstName : String
  lastName : String
  role : String
  status : UserStatus
  emailVerified : Bool
  failedLoginAttempts : Nat
  lockedUntil : Option Nat
  lastLoginAt : Option Nat
  lastLoginIp : Option String
deriving DecidableEq, Repr

def User.withoutPassword (u : User) : UserWithoutPassword :=
  { id := u.id, tenantId := u.tenantId, email := u.email,
    firstName := u.firstName, lastName := u.lastName, role := u.role,
    status := u.status, emailVerified := u.emailVerified,
    failedLoginAttempts := u.failedLoginAttempts,
    lockedUntil := u.lockedUntil, lastLoginAt := u.lastLoginAt,
    lastLoginIp := u.lastLoginIp }

/-- A `RefreshToken` row: the persisted Refresh Record. -/
structure RefreshRecord where
  token : SignedToken
  userId : Nat
  expiresAt : Nat
  revokedAt : Option Nat
  replacedBy : Option SignedToken
deriving DecidableEq, Repr

/-- An `AuditLog` row as written by `AuditService.log`. -/
structure AuditEntry where
  tenantId : Option Nat
  userId : Option Nat
  action : String
  resource : String
  resourceId : Option Nat
  description : String
  ipAddress : Option String
deriving DecidableEq, Repr

/-- The mutable state the auth flow touches: the Postgres tables reached
through Prisma plus the Redis denylist (`blacklist:<token>` keys, stored as
token/expiry pairs).  `nextId` models Prisma id generation. -/
structure DB where
  users : List User
  tenants : List Tenant
  refreshTokens : List RefreshRecord
  auditLogs : List AuditEntry
  redisBlacklist : List (SignedToken × Nat)
  nextId : Nat
deriving DecidableEq, Repr

/-- 15 minutes in milliseconds (`15 * 60 * 1000` in `login`). -/
def fifteenMinutes : Nat := 15 * 60 * 1000

/-- 7 days in milliseconds (`7 * 24 * 60 * 60 * 1000` in `generateTokens`). -/
def sevenDays : Nat := 7 * 24 * 60 * 60 * 1000

/-- The Redis denylist TTL used by `logout`: `setEx(…, 7 * 24 * 60 * 60, '1')`,
i.e. 7 days, expressed in the model's milliseconds. -/
def blacklistTTL : Nat := 7 * 24 * 60 * 60 * 1000

/-- The access-signing key `process.env.JWT_SECRET`. -/
def jwtSecret : String := "JWT_SECRET"

/-- The refresh-signing key `process.env.JWT_REFRESH_SECRET`. -/
def jwtRefreshSecret : String := "JWT_REFRESH_SECRET"

/-- `bcrypt.hash(password, 12)`, modelled as an injective tagging. -/
def bcryptHash (password : String) : String := "bcrypt$12$" ++ password

/-- `bcrypt.compare(password, hash)`. -/
def bcryptCompare (password hash : String) : Bool :=
  hash == bcryptHash password

/-- `jwt.verify(token, key)`: succeeds when the token was signed with `key`
and has not yet expired; on a bad signature or an expired token the library
throws a `JsonWebTokenError`, modelled as `none`. -/
def jwtVerify (tok : SignedToken) (key : String) (now : Nat) : Option JWTPayload :=
  if tok.key == key && now < tok.exp then some tok.payload else none

/-- `AuditService.log`: wraps the insert in try/catch and swallows every
failure ("Don't throw - audit logging should not break the main flow").
`ok` says whether the underlying insert succeeded. -/
def auditLog (db : DB) (ok : Bool) (entry : AuditEntry) : DB :=
  if ok then { db with auditLogs := db.auditLogs ++ [entry] } else db

/-- The pure token-minting part of `generateTokens`: the access JWT signed
with `JWT_SECRET` and 15-minute expiry, the refresh JWT signed with
`JWT_REFRESH_SECRET` and 7-day expiry. -/
def signTokens (user : User) (now : Nat) : AuthTokens :=
  let payload : JWTPayload :=
    { userId := user.id, email := user.email, role := user.role,
      tenantId := user.tenantId }
  { accessToken := { payload := payload, key := jwtSecret, iat := now,
                     exp := now + fifteenMinutes },
    refreshToken := { payload := payload, key := jwtRefreshSecret, iat := now,
                      exp := now + sevenDays } }

/-- `AuthService.generateTokens`: mints the pair and persists a new
`RefreshToken` row with `expiresAt = Date.now() + 7 days`. -/
def generateTokens (db : DB) (user : User) (now : Nat) : AuthTokens × DB :=
  let tokens := signTokens user now
  let record : RefreshRecord :=
    { token := tokens.refreshToken, userId := user.id,
      expiresAt := now + sevenDays, revokedAt := none, replacedBy := none }
  (tokens, { db with refreshTokens := db.refreshTokens ++ [record] })

/-- The success tail of `AuthService.login`: reset the failure counter and
lock, stamp last-login info, mint tokens, write the LOGIN audit entry and
return the password-stripped user with the tokens. -/
def loginSuccess (db : DB) (user : User) (ipAddress : Option String)
    (now : Nat) (auditOk : Bool) :
    Except AppError (UserWithoutPassword × AuthTokens) × DB :=
  let db1 := { db with users := db.users.map (fun u =>
    if u.id == user.id then
      { u with lastLoginAt := some now, lastLoginIp := ipAddress,
               failedLoginAttempts := 0, lockedUntil := none }
    else u) }
  let (tokens, db2) := generateTokens db1 user now
  let db3 := auditLog db2 auditOk
    { tenantId := user.tenantId, userId := some user.id, action := "LOGIN",
      resource := "User", resourceId := some user.id,
      description := "User logged in successfully", ipAddress := ipAddress }
  (.ok (user.withoutPassword, tokens), db3)

/-- `AuthService.login(dto, ipAddress)`, guard for guard.  `auditOk` is
whether the audit-log insert would succeed (always swallowed by
`AuditService.log`). -/
def login (db : DB) (email password : String) (ipAddress : Option String)
    (now : Nat) (auditOk : Bool) :
    Except AppError (UserWithoutPassword × AuthTokens) × DB :=
  match db.users.find? (fun u => u.email == email) with
  | none => (.error (.unauthorizedError "Invalid credentials"), db)
  | some user =>
    if user.lockedUntil.any (fun l => decide (now < l)) then
      (.error (.unauthorizedError "Account is locked. Please try again later."), db)
    else if !bcryptCompare password user.passwordHash then
      let failedAttempts := user.failedLoginAttempts + 1
      let db1 := { db with users := db.users.map (fun u =>
        if u.id == user.id then
          { u with failedLoginAttempts := failedAttempts,
                   lockedUntil :=
                     if 5 ≤ failedAttempts then some (now + fifteenMinutes)
                     else u.lockedUntil }
        else u) }
      let db2 := auditLog db1 auditOk
        { tenantId := user.tenantId, userId := some user.id,
          action := "LOGIN_FAILED", resource := "User",
          resourceId := some user.id, description := "Failed login attempt",
          ipAddress := ipAddress }
      (.error (.unauthorizedError "Invalid credentials"), db2)
    else if user.status ≠ UserStatus.ACTIVE then
      (.error (.unauthorizedError "Account is not active"), db)
    else
      match user.tenantId.bind (fun tid => db.tenants.find? (fun t => t.id == tid)) with
      | some tenant =>
        if tenant.status = TenantStatus.SUSPENDED then
          (.error (.unauthorizedError "Tenant account is suspended"), db)
        else if tenant.status = TenantStatus.CANCELLED then
          (.error (.unauthorizedError "Tenant account is cancelled"), db)
        else loginSuccess db user ipAddress now auditOk
      | none => loginSuccess db user ipAddress now auditOk

/-- The read/guard phase of `AuthService.refreshToken` (steps 1-4): verify
the JWT, look up the stored `RefreshToken` row, reject a missing or revoked
row, reject an expired row, then resolve the user of the verified payload
and require status ACTIVE.  Returns the resolved user on success. -/
def rotateCheck (db : DB) (tok : SignedToken) (now : Nat) : Except AppError User :=
  match jwtVerify tok jwtRefreshSecret now with
  | none => .error (.unauthorizedError "Invalid refresh token")
  | some decoded =>
    match db.refreshTokens.find? (fun r => r.token == tok) with
    | none => .error (.unauthorizedError "Invalid refresh token")
    | some stored =>
      if stored.revokedAt.isSome then
        .error (.unauthorizedError "Invalid refresh token")
      else if stored.expiresAt < now then
        .error (.unauthorizedError "Refresh token expired")
      else
        match db.users.find? (fun u => u.id == decoded.userId) with
        | none => .error (.unauthorizedError "User not found or inactive")
        | some user =>
          if user.status ≠ UserStatus.ACTIVE then
            .error (.unauthorizedError "User not found or inactive")
          else .ok user

/-- The final update of `AuthService.refreshToken`:
`prisma.refreshToken.update({ where: { token }, data: { revokedAt, replacedBy } })`.
The `where` clause keys on the token value only; the row is rewritten
whatever its current `revokedAt` is. -/
def revokeRecordWrite (records : List RefreshRecord) (tok : SignedToken)
    (now : Nat) (replacedBy : SignedToken) : List RefreshRecord :=
  records.map (fun r =>
    if r.token == tok then
      { r with revokedAt := some now, replacedBy := some replacedBy }
    else r)

/-- The write phase of `AuthService.refreshToken` (steps 5-6): mint and
persist the new pair with `generateTokens`, then rewrite the old row. -/
def rotateWrite (db : DB) (user : User) (tok : SignedToken) (now : Nat) :
    AuthTokens × DB :=
  let (newTokens, db1) := generateTokens db user now
  (newTokens,
   { db1 with refreshTokens :=
       revokeRecordWrite db1.refreshTokens tok now newTokens.refreshToken })

/-- `AuthService.refreshToken(refreshToken)`: the guard phase followed by
the write phase against the same state (single sequential request). -/
def refreshTokenOp (db : DB) (tok : SignedToken) (now : Nat) :
    Except AppError AuthTokens × DB :=
  match rotateCheck db tok now with
  | .error e => (.error e, db)
  | .ok user =>
    let (newTokens, db1) := rotateWrite db user tok now
    (.ok newTokens, db1)

/-- `AuthService.logout(refreshToken)`:
`updateMany({ where: { token }, data: { revokedAt: new Date() } })` (no
error when nothing matches, and no condition on the current `revokedAt`),
then, when Redis is available, `setEx('blacklist:' + token, 7 days, '1')` —
modelled as replacing any entry for the same key and recording the new
expiry instant. -/
def logout (db : DB) (tok : SignedToken) (now : Nat) (redisAvailable : Bool) : DB :=
  let db1 := { db with refreshTokens := db.refreshTokens.map (fun r =>
    if r.token == tok then { r with revokedAt := some now } else r) }
  if redisAvailable then
    { db1 with redisBlacklist :=
        db1.redisBlacklist.filter (fun p => !(p.1 == tok)) ++
          [(tok, now + blacklistTTL)] }
  else db1

/-- Character class `[^\s@]` of the email regex. -/
def emailClassChar (c : Char) : Bool := !c.isWhitespace && c ≠ '@'

/-- `AuthService.isValidEmail`: the regex `^[^\s@]+@[^\s@]+\.[^\s@]+$`.
Every class excludes `@`, so a match is exactly: one `@` splitting the
string into a nonempty class-only local part and a class-only domain part
holding a dot that has at least one character on each side. -/
def isValidEmail (s : String) : Bool :=
  match s.splitOn "@" with
  | [localPart, domain] =>
    let dcs := domain.toList
    localPart.length > 0 && localPart.toList.all emailClassChar &&
    dcs.all emailClassChar &&
    (List.range dcs.length).any (fun i =>
      dcs.getD i ' ' == '.' && decide (1 ≤ i) && decide (i + 2 ≤ dcs.length))
  | _ => false

/-- Character class `[A-Za-z\d@$!%*?&]` of the password regex. -/
def pwClassChar (c : Char) : Bool :=
  (('a' ≤ c && c ≤ 'z') || ('A' ≤ c && c ≤ 'Z') || c.isDigit ||
   "@$!%*?&".toList.contains c)

/-- `AuthService.isStrongPassword`: the regex
`^(?=.*[a-z])(?=.*[A-Z])(?=.*\d)(?=.*[@$!%*?&])[A-Za-z\d@$!%*?&]{8,}$`. -/
def isStrongPassword (p : String) : Bool :=
  let cs := p.toList
  decide (8 ≤ cs.length) && cs.all pwClassChar &&
  cs.any (fun c => 'a' ≤ c && c ≤ 'z') &&
  cs.any (fun c => 'A' ≤ c && c ≤ 'Z') &&
  cs.any Char.isDigit &&
  cs.any (fun c => "@$!%*?&".toList.contains c)

/-- Lower-case ASCII letter or digit, the class kept by `createSlug`. -/
def slugChar (c : Char) : Bool :=
  ('a' ≤ c && c ≤ 'z') || ('0' ≤ c && c ≤ '9')

/-- Collapse runs of `'-'` into a single `'-'` (the `+` of the replaced
regex `[^a-z0-9]+`). -/
def collapseDashes : List Char → List Char
  | [] => []
  | '-' :: cs =>
    match collapseDashes cs with
    | '-' :: rest => '-' :: rest
    | rest => '-' :: rest
  | c :: cs => c :: collapseDashes cs

/-- `AuthService.createSlug`: lower-case, turn each run outside `[a-z0-9]`
into a single `'-'`, strip leading/trailing dashes, keep 50 characters. -/
def createSlug (name : String) : String :=
  let lowered := name.toList.map Char.toLower
  let dashed := lowered.map (fun c => if slugChar c then c else '-')
  let collapsed := collapseDashes dashed
  let trimmed := (collapsed.dropWhile (· == '-')).reverse.dropWhile (· == '-')
    |>.reverse
  String.mk (trimmed.take 50)

/-- `RegisterUserDto` of `types/index.ts`. -/
structure RegisterUserDto where
  tenantName : String
  email : String
  password : String
  firstName : String
  lastName : String
deriving DecidableEq, Repr

/-- `AuthService.register(dto)`: validation guards, uniqueness checks, the
tenant+user creation transaction, token issuance and the audit write. -/
def register (db : DB) (dto : RegisterUserDto) (now : Nat) (auditOk : Bool) :
    Except AppError (UserWithoutPassword × AuthTokens) × DB :=
  if !isValidEmail dto.email then
    (.error (.validationError "Invalid email format"), db)
  else if !isStrongPassword dto.password then
    (.error (.validationError
      "Password must be at least 8 characters with uppercase, lowercase, number, and special character"), db)
  else if (db.users.find? (fun u => u.email == dto.email)).isSome then
    (.error (.conflictError "Email already registered"), db)
  else
    let slug := createSlug dto.tenantName
    if (db.tenants.find? (fun t => t.slug == slug)).isSome then
      (.error (.conflictError "Tenant name already taken"), db)
    else
      let passwordHash := bcryptHash dto.password
      let tenant : Tenant :=
        { id := db.nextId, name := dto.tenantName, slug := slug,
          plan := "TRIAL", status := TenantStatus.TRIAL,
          trialEndsAt := some (now + 14 * 24 * 60 * 60 * 1000),
          maxUsers := 5, maxApiCalls := 1000, maxStorage := 1073741824 }
      let user : User :=
        { id := db.nextId + 1, tenantId := some tenant.id, email := dto.email,
          passwordHash := passwordHash, firstName := dto.firstName,
          lastName := dto.lastName, role := "TENANT_ADMIN",
          status := UserStatus.ACTIVE, emailVerified := false,
          failedLoginAttempts := 0, lockedUntil := none, lastLoginAt := none,
          lastLoginIp := none }
      let db1 := { db with tenants := db.tenants ++ [tenant],
                           users := db.users ++ [user],
                           nextId := db.nextId + 2 }
      let (tokens, db2) := generateTokens db1 user now
      let db3 := auditLog db2 auditOk
        { tenantId := some tenant.id, userId := some user.id,
          action := "CREATE", resource := "User", resourceId := some user.id,
          description := "User registered and tenant created",
          ipAddress := none }
      (.ok (user.withoutPassword, tokens), db3)

/-- Two `refreshToken` requests racing on the schedule in which both run
their read/guard phase against the shared state before either runs its
write phase (the interleaving that the spec's conditional-write requirement
is meant to exclude).  Each request's guard phase executes exactly
`rotateCheck` and its write phase exactly `rotateWrite`, the second write
seeing the first write's state. -/
def interleavedRotate (db : DB) (tok1 tok2 : SignedToken) (now1 now2 : Nat) :
    (Except AppError AuthTokens × Except AppError AuthTokens) × DB :=
  let c1 := rotateCheck db tok1 now1
  let c2 := rotateCheck db tok2 now2
  match c1 with
  | .error e1 =>
    match c2 with
    | .error e2 => ((.error e1, .error e2), db)
    | .ok u2 =>
      let (t2, db2) := rotateWrite db u2 tok2 now2
      ((.error e1, .ok t2), db2)
  | .ok u1 =>
    let (t1, db1) := rotateWrite db u1 tok1 now1
    match c2 with
    | .error e2 => ((.ok t1, .error e2), db1)
    | .ok u2 =>
      let (t2, db2) := rotateWrite db1 u2 tok2 now2
      ((.ok t1, .ok t2), db2)

/-- Components of the state a primary auth operation is responsible for:
everything except the best-effort audit log. -/
def primaryEq (a b : DB) : Prop :=
  a.users = b.users ∧ a.tenants = b.tenants ∧
  a.refreshTokens = b.refreshTokens ∧ a.redisBlacklist = b.redisBlacklist ∧
  a.nextId = b.nextId

/- Concrete fixtures used by witnesses and counterexamples. -/

/-- A tenant row with status ACTIVE. -/
def activeTenant : Tenant :=
  { id := 10, name := "Acme", slug := "acme", plan := "PRO",
    status := TenantStatus.ACTIVE, trialEndsAt := none,
    maxUsers := 5, maxApiCalls := 1000, maxStorage := 1073741824 }

/-- The same tenant row with status SUSPENDED. -/
def suspendedTenant : Tenant := { activeTenant with status := TenantStatus.SUSPENDED }

/-- An active, unlocked user of tenant 10 whose password is `Abc123!@`. -/
def baseUser : User :=
  { id := 1, tenantId := some 10, email := "a@x.com",
    passwordHash := bcryptHash "Abc123!@", firstName := "A", lastName := "B",
    role := "TENANT_ADMIN", status := UserStatus.ACTIVE, emailVerified := true,
    failedLoginAttempts := 0, lockedUntil := none, lastLoginAt := none,
    lastLoginIp := none }

/-- `baseUser` with a lock expiring at instant `10 ^ 9`. -/
def lockedUser : User := { baseUser with lockedUntil := some (10 ^ 9) }

/-- A refresh JWT for `baseUser` minted at instant 0. -/
def tok0 : SignedToken :=
  { payload := { userId := 1, email := "a@x.com", role := "TENANT_ADMIN",
                 tenantId := some 10 },
    key := jwtRefreshSecret, iat := 0, exp := sevenDays }

/-- The persisted Refresh Record of `tok0`, unrevoked and unexpired. -/
def rec0 : RefreshRecord :=
  { token := tok0, userId := 1, expiresAt := sevenDays, revokedAt := none,
    replacedBy := none }

/-- State: `baseUser` in an ACTIVE tenant, `rec0` persisted. -/
def dbActive : DB :=
  { users := [baseUser], tenants := [activeTenant], refreshTokens := [rec0],
    auditLogs := [], redisBlacklist := [], nextId := 100 }

/-- State: `baseUser` in a SUSPENDED tenant, `rec0` persisted. -/
def dbSusp : DB := { dbActive with tenants := [suspendedTenant] }

/-- State: the user is locked (to `login`) in an ACTIVE tenant. -/
def dbLocked : DB := { dbActive with users := [lockedUser] }

/-- State in which `tok0` sits on the Redis denylist while its persisted
record still looks valid — the "forged lookup" situation of the spec. -/
def dbDenylisted : DB := { dbActive with redisBlacklist := [(tok0, 42)] }

/-- The concrete post-lockout states for the `c4_lockout` witness: five
wrong-secret logins of `baseUser` at instants 1..5. -/
def lockDb1 : DB := (login dbActive "a@x.com" "x" none 1 true).2

def lockDb2 : DB := (login lockDb1 "a@x.com" "x" none 2 true).2

def lockDb3 : DB := (login lockDb2 "a@x.com" "x" none 3 true).2

def lockDb4 : DB := (login lockDb3 "a@x.com" "x" none 4 true).2

def lockDb5 : DB := (login lockDb4 "a@x.com" "x" none 5 true).2

@[simp] theorem auditLog_users (db : DB) (ok : Bool) (e : AuditEntry) :
    (auditLog db ok e).users = db.users := by
  unfold auditLog; split <;> rfl

@[simp] theorem auditLog_tenants (db : DB) (ok : Bool) (e : AuditEntry) :
    (auditLog db ok e).tenants = db.tenants := by
  unfold auditLog; split <;> rfl

@[simp] theorem auditLog_refreshTokens (db : DB) (ok : Bool) (e : AuditEntry) :
    (auditLog db ok e).refreshTokens = db.refreshTokens := by
  unfold auditLog; split <;> rfl

@[simp] theorem auditLog_redisBlacklist (db : DB) (ok : Bool) (e : AuditEntry) :
    (auditLog db ok e).redisBlacklist = db.redisBlacklist := by
  unfold auditLog; split <;> rfl

@[simp] theorem auditLog_nextId (db : DB) (ok : Bool) (e : AuditEntry) :
    (auditLog db ok e).nextId = db.nextId := by
  unfold auditLog; split <;> rfl

/-- `find?` through a `map` whose function does not disturb the predicate. -/
theorem find_map_of_pred_eq {α : Type} (f : α → α) (p : α → Bool)
    (hp : ∀ x, p (f x) = p x) :
    ∀ (l : List α) (u : α), l.find? p = some u → (l.map f).find? p = some (f u) := by
  intro l
  induction l with
  | nil => intro u h; simp [List.find?] at h
  | cons a t ih =>
    intro u h
    rw [List.map_cons]
    cases hpa : p a with
    | true =>
      rw [List.find?_cons, hpa] at h
      rw [List.find?_cons, hp a, hpa]
      cases h; rfl
    | false =>
      rw [List.find?_cons, hpa] at h
      rw [List.find?_cons, hp a, hpa]
      exact ih u h

/-- `find?` through an appended suffix when the prefix already finds. -/
theorem find_append_of_find {α : Type} (p : α → Bool) (l1 l2 : List α)
    (u : α) (h : l1.find? p = some u) : (l1 ++ l2).find? p = some u := by
  rw [List.find?_append, h]; rfl

/-- `login` guard 1: unknown identifier. -/
theorem login_not_found (db : DB) (email pw : String) (ip : Option String)
    (now : Nat) (aud : Bool)
    (h : db.users.find? (fun u => u.email == email) = none) :
    login db email pw ip now aud =
      (.error (.unauthorizedError "Invalid credentials"), db) := by
  unfold login; rw [h]

/-- `login` guard 2: the lock is in force; no state change. -/
theorem login_locked (db : DB) (email pw : String) (ip : Option String)
    (now l : Nat) (aud : Bool) (u : User)
    (h : db.users.find? (fun x => x.email == email) = some u)
    (hl : u.lockedUntil = some l) (hnow : now < l) :
    login db email pw ip now aud =
      (.error (.unauthorizedError "Account is locked. Please try again later."), db) := by
  unfold login; rw [h]; simp [hl, hnow]

/-- `login` guard 3: wrong secret; the counter row update and the audit
write, exactly as the code performs them. -/
theorem login_wrong_password (db : DB) (email pw : String) (ip : Option String)
    (now : Nat) (aud : Bool) (u : User)
    (h : db.users.find? (fun x => x.email == email) = some u)
    (hl : u.lockedUntil.any (fun l => decide (now < l)) = false)
    (hpw : bcryptCompare pw u.passwordHash = false) :
    login db email pw ip now aud =
      (.error (.unauthorizedError "Invalid credentials"),
       auditLog { db with users := db.users.map (fun x =>
         if x.id == u.id then
           { x with failedLoginAttempts := u.failedLoginAttempts + 1,
                    lockedUntil :=
                      if 5 ≤ u.failedLoginAttempts + 1 then
                        some (now + fifteenMinutes)
                      else x.lockedUntil }
         else x) } aud
       { tenantId := u.tenantId, userId := some u.id,
         action := "LOGIN_FAILED", resource := "User",
         resourceId := some u.id, description := "Failed login attempt",
         ipAddress := ip }) := by
  unfold login; rw [h]; simp [hl, hpw]

/-- After a wrong-secret `login`, the identifier still resolves, to the row
with the incremented counter. -/
theorem login_wrong_password_find (db : DB) (email pw : String)
    (ip : Option String) (now : Nat) (aud : Bool) (u : User)
    (h : db.users.find? (fun x => x.email == email) = some u)
    (hl : u.lockedUntil.any (fun l => decide (now < l)) = false)
    (hpw : bcryptCompare pw u.passwordHash = false) :
    (login db email pw ip now aud).2.users.find? (fun x => x.email == email) =
      some { u with failedLoginAttempts := u.failedLoginAttempts + 1,
                    lockedUntil :=
                      if 5 ≤ u.failedLoginAttempts + 1 then
                        some (now + fifteenMinutes)
                      else u.lockedUntil } := by
  rw [login_wrong_password db email pw ip now aud u h hl hpw]
  rw [auditLog_users]
  have := find_map_of_pred_eq
    (fun x : User =>
      if x.id == u.id then
        { x with failedLoginAttempts := u.failedLoginAttempts + 1,
                 lockedUntil :=
                   if 5 ≤ u.failedLoginAttempts + 1 then
                     some (now + fifteenMinutes)
                   else x.lockedUntil }
      else x)
    (fun x => x.email == email)
    (by intro x; by_cases hx : x.id == u.id <;> simp [hx])
    db.users u h
  simpa using this

/-- `login` guards 4-5: right secret, ACTIVE user, tenant-status outcomes. -/
theorem login_tenant_status (db : DB) (email pw : String) (ip : Option String)
    (now : Nat) (aud : Bool) (u : User) (t : Tenant) (tid : Nat)
    (h : db.users.find? (fun x => x.email == email) = some u)
    (hl : u.lockedUntil.any (fun l => decide (now < l)) = false)
    (hpw : bcryptCompare pw u.passwordHash = true)
    (hst : u.status = UserStatus.ACTIVE)
    (hten : u.tenantId = some tid)
    (ht : db.tenants.find? (fun x => x.id == tid) = some t) :
    (t.status = TenantStatus.SUSPENDED →
      login db email pw ip now aud =
        (.error (.unauthorizedError "Tenant account is suspended"), db)) ∧
    (t.status = TenantStatus.CANCELLED →
      login db email pw ip now aud =
        (.error (.unauthorizedError "Tenant account is cancelled"), db)) := by
  constructor <;> intro hs <;>
    (unfold login; rw [h]; simp [hl, hpw, hst, hten, ht, hs])

/-- `rotateCheck` succeeds when the JWT verifies, the stored record is
present, unrevoked and unexpired, and the payload's user is ACTIVE. -/
theorem rotateCheck_ok (db : DB) (tok : SignedToken) (now : Nat)
    (p : JWTPayload) (r : RefreshRecord) (u : User)
    (hv : jwtVerify tok jwtRefreshSecret now = some p)
    (hr : db.refreshTokens.find? (fun x => x.token == tok) = some r)
    (hrev : r.revokedAt = none)
    (hexp : ¬ r.expiresAt < now)
    (hu : db.users.find? (fun x => x.id == p.userId) = some u)
    (hst : u.status = UserStatus.ACTIVE) :
    rotateCheck db tok now = .ok u := by
  unfold rotateCheck; rw [hv, hr]; simp [hrev, hexp, hu, hst]

/-- `refreshToken` on a passing guard phase: the minted pair and the state
after both writes. -/
theorem refreshTokenOp_of_check_ok (db : DB) (tok : SignedToken) (now : Nat)
    (u : User) (hc : rotateCheck db tok now = .ok u) :
    refreshTokenOp db tok now =
      (.ok (signTokens u now), (rotateWrite db u tok now).2) := by
  unfold refreshTokenOp; rw [hc]; simp [rotateWrite, generateTokens]

/-- `refreshToken` on a failing guard phase: the error, no state change. -/
theorem refreshTokenOp_of_check_error (db : DB) (tok : SignedToken)
    (now : Nat) (e : AppError) (hc : rotateCheck db tok now = .error e) :
    refreshTokenOp db tok now = (.error e, db) := by
  unfold refreshTokenOp; rw [hc]

/-- After the step-6 write has run over a table in which the presented
value's record was found, any later guard phase on the same value fails
with "Invalid refresh token": when the JWT still verifies the lookup now
finds the record with `revokedAt` set, and when the JWT no longer verifies
the verification step raises the same message. -/
theorem rotateCheck_replay (db2 : DB) (rt : List RefreshRecord)
    (tok rb : SignedToken) (now1 now2 : Nat) (r : RefreshRecord)
    (hfind : rt.find? (fun x => x.token == tok) = some r)
    (hdb : db2.refreshTokens = revokeRecordWrite rt tok now1 rb) :
    rotateCheck db2 tok now2 =
      .error (.unauthorizedError "Invalid refresh token") := by
  have hrt := List.find?_some hfind
  have hfind2 := find_map_of_pred_eq
    (fun x : RefreshRecord =>
      if x.token == tok then
        { x with revokedAt := some now1, replacedBy := some rb }
      else x)
    (fun x => x.token == tok)
    (by intro x; by_cases hx : x.token == tok <;> simp [hx]) _ _ hfind
  unfold rotateCheck
  cases hv2 : jwtVerify tok jwtRefreshSecret now2 with
  | none => rfl
  | some p2 =>
    rw [hdb]
    unfold revokeRecordWrite
    rw [hfind2]
    simp [hrt]

/-- `refreshToken` reads and writes no tenant row: its outcome is invariant
under replacing the whole tenant table. -/
theorem refreshTokenOp_tenants_invariant (db : DB) (ts : List Tenant)
    (tok : SignedToken) (now : Nat) :
    (refreshTokenOp { db with tenants := ts } tok now).1 =
      (refreshTokenOp db tok now).1 ∧
    (refreshTokenOp { db with tenants := ts } tok now).2 =
      { (refreshTokenOp db tok now).2 with tenants := ts } := by
  have hsc : rotateCheck { db with tenants := ts } tok now =
      rotateCheck db tok now := rfl
  unfold refreshTokenOp
  rw [hsc]
  cases hc : rotateCheck db tok now with
  | error e => exact ⟨rfl, rfl⟩
  | ok u => exact ⟨rfl, rfl⟩

/-- `refreshToken` never reads the Redis denylist: its outcome is invariant
under replacing the denylist wholesale. -/
theorem refreshTokenOp_blacklist_invariant (db : DB)
    (bl : List (SignedToken × Nat)) (tok : SignedToken) (now : Nat) :
    (refreshTokenOp { db with redisBlacklist := bl } tok now).1 =
      (refreshTokenOp db tok now).1 ∧
    (refreshTokenOp { db with redisBlacklist := bl } tok now).2 =
      { (refreshTokenOp db tok now).2 with redisBlacklist := bl } := by
  have hsc : rotateCheck { db with redisBlacklist := bl } tok now =
      rotateCheck db tok now := rfl
  unfold refreshTokenOp
  rw [hsc]
  cases hc : rotateCheck db tok now with
  | error e => exact ⟨rfl, rfl⟩
  | ok u => exact ⟨rfl, rfl⟩

/-- C1, as stated, is false: with a SUSPENDED tenant, `login` is indeed
blocked, but `refreshToken` never inspects the tenant and still mints a
fresh Credential Pair for the same actor's valid refresh value. -/
theorem c1_counterexample :
    (login dbSusp "a@x.com" "Abc123!@" none 1000 true).1 =
      .error (.unauthorizedError "Tenant account is suspended") ∧
    (refreshTokenOp dbSusp tok0 1000).1.isOk = true := by
  constructor
  · decide
  · decide

/-- C1 (amended): an Actor of a Suspended or Cancelled Tenant cannot obtain
credentials through Authenticate, but Rotate does not consult the tenant's
status: a valid, unrevoked, unexpired refresh value of an ACTIVE actor is
still exchanged for a new Credential Pair in the very same state. -/
theorem c1_amended (db : DB) (email pw : String) (ip : Option String)
    (now : Nat) (aud : Bool) (u : User) (t : Tenant) (tid : Nat)
    (tok : SignedToken) (p : JWTPayload) (r : RefreshRecord)
    (hf : db.users.find? (fun x => x.email == email) = some u)
    (hl : u.lockedUntil.any (fun l => decide (now < l)) = false)
    (hpw : bcryptCompare pw u.passwordHash = true)
    (hst : u.status = UserStatus.ACTIVE)
    (hten : u.tenantId = some tid)
    (ht : db.tenants.find? (fun x => x.id == tid) = some t)
    (hv : jwtVerify tok jwtRefreshSecret now = some p)
    (hr : db.refreshTokens.find? (fun x => x.token == tok) = some r)
    (hrev : r.revokedAt = none)
    (hexp : ¬ r.expiresAt < now)
    (hu : db.users.find? (fun x => x.id == p.userId) = some u) :
    (t.status = TenantStatus.SUSPENDED →
      login db email pw ip now aud =
        (.error (.unauthorizedError "Tenant account is suspended"), db)) ∧
    (t.status = TenantStatus.CANCELLED →
      login db email pw ip now aud =
        (.error (.unauthorizedError "Tenant account is cancelled"), db)) ∧
    (refreshTokenOp db tok now).1 = .ok (signTokens u now) := by
  obtain ⟨hs, hcnl⟩ :=
    login_tenant_status db email pw ip now aud u t tid hf hl hpw hst hten ht
  refine ⟨hs, hcnl, ?_⟩
  rw [refreshTokenOp_of_check_ok db tok now u
    (rotateCheck_ok db tok now p r u hv hr hrev hexp hu hst)]

/-- Witness for `c1_amended` at the concrete suspended-tenant state. -/
theorem c1_witness :
    (suspendedTenant.status = TenantStatus.SUSPENDED →
      login dbSusp "a@x.com" "Abc123!@" none 1000 true =
        (.error (.unauthorizedError "Tenant account is suspended"), dbSusp)) ∧
    (suspendedTenant.status = TenantStatus.CANCELLED →
      login dbSusp "a@x.com" "Abc123!@" none 1000 true =
        (.error (.unauthorizedError "Tenant account is cancelled"), dbSusp)) ∧
    (refreshTokenOp dbSusp tok0 1000).1 = .ok (signTokens baseUser 1000) :=
  c1_amended dbSusp "a@x.com" "Abc123!@" none 1000 true baseUser
    suspendedTenant 10 tok0 tok0.payload rec0
    (by decide) (by decide) (by decide) (by decide) (by decide) (by decide)
    (by decide) (by decide) (by decide) (by decide) (by decide)

/-- C3, as stated, is false: the suspended-tenant failure is raised as
`UnauthorizedError` (HTTP 401) — the very class used for authentication
failures such as "Invalid credentials" — not as a distinct
authorization-error class (`ForbiddenError`, HTTP 403, exists unused). -/
theorem c3_counterexample :
    (login dbSusp "a@x.com" "Abc123!@" none 1000 true).1 =
      .error (.unauthorizedError "Tenant account is suspended") ∧
    (AppError.unauthorizedError "Tenant account is suspended").statusCode =
      (AppError.unauthorizedError "Invalid credentials").statusCode ∧
    (AppError.unauthorizedError "Tenant account is suspended").statusCode ≠
      (AppError.forbiddenError "Tenant account is suspended").statusCode := by
  refine ⟨by decide, by decide, by decide⟩

/-- C3 (amended): Authenticate against a Suspended tenant's actor fails
even with a correct secret, but the error is an `UnauthorizedError` with
message "Tenant account is suspended" — the same error class (HTTP 401) as
authentication failures, not a distinct authorization-error class. -/
theorem c3_amended (db : DB) (email pw : String) (ip : Option String)
    (now : Nat) (aud : Bool) (u : User) (t : Tenant) (tid : Nat)
    (hf : db.users.find? (fun x => x.email == email) = some u)
    (hl : u.lockedUntil.any (fun l => decide (now < l)) = false)
    (hpw : bcryptCompare pw u.passwordHash = true)
    (hst : u.status = UserStatus.ACTIVE)
    (hten : u.tenantId = some tid)
    (ht : db.tenants.find? (fun x => x.id == tid) = some t)
    (hsusp : t.status = TenantStatus.SUSPENDED) :
    login db email pw ip now aud =
      (.error (.unauthorizedError "Tenant account is suspended"), db) ∧
    (AppError.unauthorizedError "Tenant account is suspended").statusCode =
      (AppError.unauthorizedError "Invalid credentials").statusCode := by
  exact ⟨(login_tenant_status db email pw ip now aud u t tid
    hf hl hpw hst hten ht).1 hsusp, rfl⟩

/-- Witness for `c3_amended` at the concrete suspended-tenant state. -/
theorem c3_witness :
    login dbSusp "a@x.com" "Abc123!@" none 1000 true =
      (.error (.unauthorizedError "Tenant account is suspended"), dbSusp) ∧
    (AppError.unauthorizedError "Tenant account is suspended").statusCode =
      (AppError.unauthorizedError "Invalid credentials").statusCode :=
  c3_amended dbSusp "a@x.com" "Abc123!@" none 1000 true baseUser
    suspendedTenant 10 (by decide) (by decide) (by decide) (by decide)
    (by decide) (by decide) (by decide)

/-- C7: an unknown identifier and a known identifier with a wrong secret
fail with literally the same error value,
`UnauthorizedError "Invalid credentials"`. -/
theorem c7_enumeration_resistance (db : DB) (email1 email2 pw1 pw2 : String)
    (ip1 ip2 : Option String) (now1 now2 : Nat) (aud1 aud2 : Bool) (u : User)
    (h1 : db.users.find? (fun x => x.email == email1) = none)
    (h2 : db.users.find? (fun x => x.email == email2) = some u)
    (hl : u.lockedUntil.any (fun l => decide (now2 < l)) = false)
    (hpw : bcryptCompare pw2 u.passwordHash = false) :
    (login db email1 pw1 ip1 now1 aud1).1 =
      .error (.unauthorizedError "Invalid credentials") ∧
    (login db email2 pw2 ip2 now2 aud2).1 =
      .error (.unauthorizedError "Invalid credentials") := by
  constructor
  · rw [login_not_found db email1 pw1 ip1 now1 aud1 h1]
  · rw [login_wrong_password db email2 pw2 ip2 now2 aud2 u h2 hl hpw]

/-- Witness for `c7_enumeration_resistance`: `b@y.com` is unknown,
`a@x.com` exists but the secret `nope` is wrong. -/
theorem c7_witness :
    (login dbActive "b@y.com" "whatever" none 5 true).1 =
      .error (.unauthorizedError "Invalid credentials") ∧
    (login dbActive "a@x.com" "nope" none 5 true).1 =
      .error (.unauthorizedError "Invalid credentials") :=
  c7_enumeration_resistance dbActive "b@y.com" "a@x.com" "whatever" "nope"
    none none 5 5 true true baseUser (by decide) (by decide) (by decide)
    (by decide)

/-- C10: `refreshToken` never consults `lockedUntil`: an ACTIVE actor who
is currently locked out of `login` still rotates a valid refresh value into
a new Credential Pair. -/
theorem c10_rotate_ignores_lock (db : DB) (tok : SignedToken) (now l : Nat)
    (p : JWTPayload) (r : RefreshRecord) (u : User)
    (hv : jwtVerify tok jwtRefreshSecret now = some p)
    (hr : db.refreshTokens.find? (fun x => x.token == tok) = some r)
    (hrev : r.revokedAt = none)
    (hexp : ¬ r.expiresAt < now)
    (hu : db.users.find? (fun x => x.id == p.userId) = some u)
    (hst : u.status = UserStatus.ACTIVE)
    (hfe : db.users.find? (fun x => x.email == u.email) = some u)
    (hlock : u.lockedUntil = some l) (hfut : now < l) :
    (∀ (pw : String) (ip : Option String) (aud : Bool),
      login db u.email pw ip now aud =
        (.error (.unauthorizedError "Account is locked. Please try again later."), db)) ∧
    (refreshTokenOp db tok now).1 = .ok (signTokens u now) := by
  constructor
  · intro pw ip aud
    exact login_locked db u.email pw ip now l aud u hfe hlock hfut
  · rw [refreshTokenOp_of_check_ok db tok now u
      (rotateCheck_ok db tok now p r u hv hr hrev hexp hu hst)]

/-- Witness for `c10_rotate_ignores_lock`: the locked user still rotates. -/
theorem c10_witness :
    (∀ (pw : String) (ip : Option String) (aud : Bool),
      login dbLocked lockedUser.email pw ip 1000 aud =
        (.error (.unauthorizedError "Account is locked. Please try again later."), dbLocked)) ∧
    (refreshTokenOp dbLocked tok0 1000).1 = .ok (signTokens lockedUser 1000) :=
  c10_rotate_ignores_lock dbLocked tok0 1000 (10 ^ 9) tok0.payload rec0
    lockedUser (by decide) (by decide) (by decide) (by decide) (by decide)
    (by decide) (by decide) (by decide) (by decide)

/-- C5, as stated, is false: in a state where the presented value sits on
the denylist but the persisted-record lookup still reports a valid record
(the "bypassed lookup" the spec describes), `refreshToken` succeeds — the
denylist is written by `logout` but consulted by no operation. -/
theorem c5_counterexample :
    dbDenylisted.redisBlacklist.any (fun q => q.1 == tok0) = true ∧
    (refreshTokenOp dbDenylisted tok0 1000).1.isOk = true := by
  refine ⟨by decide, by decide⟩

/-- C5 (amended): Revoke does record the value in the Redis denylist keyed
by the value, with a fixed TTL equal to the refresh assertion's total
7-day validity window — but Rotate never consults the denylist: its outcome
is bit-for-bit invariant under replacing the denylist wholesale, so a
lookup that bypasses the persisted record is not caught. -/
theorem c5_amended (db : DB) (tok : SignedToken) (now : Nat)
    (bl : List (SignedToken × Nat)) :
    (logout db tok now true).redisBlacklist =
      db.redisBlacklist.filter (fun q => !(q.1 == tok)) ++
        [(tok, now + blacklistTTL)] ∧
    blacklistTTL = sevenDays ∧
    (refreshTokenOp { db with redisBlacklist := bl } tok now).1 =
      (refreshTokenOp db tok now).1 := by
  refine ⟨by simp [logout], rfl,
    (refreshTokenOp_blacklist_invariant db bl tok now).1⟩

/-- C6, as stated, is false: a second `logout` at a later instant does not
leave the state identical to the state after the first call — the
`updateMany` overwrites `revokedAt` with the new call time (and the
denylist entry's expiry is refreshed). -/
theorem c6_counterexample :
    logout (logout dbActive tok0 10 true) tok0 20 true ≠
      logout dbActive tok0 10 true := by
  decide

/-- C6 (amended): Revoke never errors (it is a total state update; revoking
a nonexistent or already-revoked record is accepted), and a repeated Revoke
is absorbed by the last call: revoking twice equals revoking once at the
second call's time, so the record stays revoked and the only change is the
refreshed `revokedAt`/denylist expiry; at equal call times the second call
changes nothing at all. -/
theorem c6_amended (db : DB) (tok : SignedToken) (t1 t2 : Nat) (red : Bool) :
    logout (logout db tok t1 red) tok t2 red = logout db tok t2 red := by
  unfold logout
  cases red with
  | false =>
    simp [List.map_map]
    intro a _
    by_cases h : a.token = tok <;> simp [h]
  | true =>
    simp [List.map_map, List.filter_filter]
    intro a _
    by_cases h : a.token = tok <;> simp [h]

/-- C8, as stated, is false: on the schedule where both racing Rotate
calls run their lookup before either one writes, two calls presenting the
same value at distinct instants (1000 and 2000, so each mints its own
fresh token value, distinct from every stored one) both succeed, and the
final state shows the step-6 write to be a blind overwrite: the record's
`revokedAt` set to 1000 by the first write is rewritten to 2000 by the
second, with no condition on its being null. -/
theorem c8_counterexample :
    (interleavedRotate dbActive tok0 tok0 1000 2000).1.1.isOk = true ∧
    (interleavedRotate dbActive tok0 tok0 1000 2000).1.2.isOk = true ∧
    (interleavedRotate dbActive tok0 tok0 1000 2000).1.1 ≠
      (interleavedRotate dbActive tok0 tok0 1000 2000).1.2 ∧
    (interleavedRotate dbActive tok0 tok0 1000 2000).2.refreshTokens.find?
        (fun x => x.token == tok0) =
      some { rec0 with revokedAt := some 2000,
                       replacedBy := some (signTokens baseUser 2000).refreshToken } := by
  refine ⟨by decide, by decide, by decide, by decide⟩

/-- C8 (amended): the revocation write of Rotate step 6 is keyed only on
the token value and overwrites `revokedAt` whatever its current value is
(never a conditional write), so under the interleaving in which both
concurrent Rotate calls pass the record check before either writes — the
calls minting at distinct instants, so with fresh, pairwise-distinct
refresh values — both calls succeed, each returning its own new
Credential Pair. -/
theorem c8_amended (db : DB) (tok : SignedToken) (now1 now2 : Nat) (u : User)
    (hc1 : rotateCheck db tok now1 = .ok u)
    (hc2 : rotateCheck db tok now2 = .ok u)
    (hne : now1 ≠ now2)
    (hfresh1 : ∀ r ∈ db.refreshTokens,
      r.token ≠ (signTokens u now1).refreshToken)
    (hfresh2 : ∀ r ∈ db.refreshTokens,
      r.token ≠ (signTokens u now2).refreshToken) :
    (interleavedRotate db tok tok now1 now2).1.1 = .ok (signTokens u now1) ∧
    (interleavedRotate db tok tok now1 now2).1.2 = .ok (signTokens u now2) ∧
    signTokens u now1 ≠ signTokens u now2 ∧
    ∀ (r : RefreshRecord) (t : Nat) (rb : SignedToken), r.token = tok →
      revokeRecordWrite [r] tok t rb =
        [{ r with revokedAt := some t, replacedBy := some rb }] := by
  refine ⟨?_, ?_, ?_, ?_⟩
  · simp [interleavedRotate, hc1, hc2, rotateWrite, generateTokens]
  · simp [interleavedRotate, hc1, hc2, rotateWrite, generateTokens]
  · intro h
    exact hne (congrArg (fun t => t.accessToken.iat) h)
  · intro r t rb hrt
    simp [revokeRecordWrite, hrt]

/-- Witness for `c8_amended`: both interleaved rotations of `tok0`, minted
at the distinct instants 1000 and 2000, succeed at the concrete valid
state. -/
theorem c8_witness :
    (interleavedRotate dbActive tok0 tok0 1000 2000).1.1 =
      .ok (signTokens baseUser 1000) ∧
    (interleavedRotate dbActive tok0 tok0 1000 2000).1.2 =
      .ok (signTokens baseUser 2000) ∧
    signTokens baseUser 1000 ≠ signTokens baseUser 2000 ∧
    ∀ (r : RefreshRecord) (t : Nat) (rb : SignedToken), r.token = tok0 →
      revokeRecordWrite [r] tok0 t rb =
        [{ r with revokedAt := some t, replacedBy := some rb }] :=
  c8_amended dbActive tok0 1000 2000 baseUser (by decide) (by decide)
    (by decide) (by decide) (by decide)

/-- C2: on a never-before-rotated, unexpired record the first `refreshToken`
succeeds, and any second call presenting the same value fails with
`UnauthorizedError "Invalid refresh token"` whatever its time is (the
lookup finds the record with `revokedAt` set; once the JWT itself has also
expired the same message comes from the verification step), without
changing the state further. -/
theorem c2_rotation_one_shot (db : DB) (tok : SignedToken) (now1 : Nat)
    (p : JWTPayload) (r : RefreshRecord) (u : User)
    (hv : jwtVerify tok jwtRefreshSecret now1 = some p)
    (hr : db.refreshTokens.find? (fun x => x.token == tok) = some r)
    (hrev : r.revokedAt = none)
    (hexp : ¬ r.expiresAt < now1)
    (hu : db.users.find? (fun x => x.id == p.userId) = some u)
    (hst : u.status = UserStatus.ACTIVE) :
    (refreshTokenOp db tok now1).1 = .ok (signTokens u now1) ∧
    ∀ now2 : Nat,
      refreshTokenOp (refreshTokenOp db tok now1).2 tok now2 =
        (.error (.unauthorizedError "Invalid refresh token"),
         (refreshTokenOp db tok now1).2) := by
  have hc1 := rotateCheck_ok db tok now1 p r u hv hr hrev hexp hu hst
  have he1 := refreshTokenOp_of_check_ok db tok now1 u hc1
  refine ⟨by rw [he1], ?_⟩
  intro now2
  have hfind1 : (generateTokens db u now1).2.refreshTokens.find?
      (fun x => x.token == tok) = some r :=
    find_append_of_find _ _ _ _ hr
  have hdb : (refreshTokenOp db tok now1).2.refreshTokens =
      revokeRecordWrite (generateTokens db u now1).2.refreshTokens tok now1
        (generateTokens db u now1).1.refreshToken := by
    rw [he1]; rfl
  have hc2 := rotateCheck_replay (refreshTokenOp db tok now1).2
    (generateTokens db u now1).2.refreshTokens tok
    (generateTokens db u now1).1.refreshToken now1 now2 r hfind1 hdb
  rw [refreshTokenOp_of_check_error _ tok now2 _ hc2]

/-- Witness for `c2_rotation_one_shot` at the concrete valid state. -/
theorem c2_witness :
    (refreshTokenOp dbActive tok0 1000).1 = .ok (signTokens baseUser 1000) ∧
    ∀ now2 : Nat,
      refreshTokenOp (refreshTokenOp dbActive tok0 1000).2 tok0 now2 =
        (.error (.unauthorizedError "Invalid refresh token"),
         (refreshTokenOp dbActive tok0 1000).2) :=
  c2_rotation_one_shot dbActive tok0 1000 tok0.payload rec0 baseUser
    (by decide) (by decide) (by decide) (by decide) (by decide) (by decide)

/-- C4: from a fresh (zero-counter, unlocked) actor, five consecutive
wrong-secret `login` calls each fail with "Invalid credentials", the fifth
sets `lockedUntil` to 15 minutes past its call time, and until that instant
every further `login` — with any secret — fails with the account-locked
error and leaves the state (in particular the failed counter) unchanged. -/
theorem c4_lockout (db : DB) (email : String) (ip : Option String)
    (t1 t2 t3 t4 t5 : Nat) (pw1 pw2 pw3 pw4 pw5 : String)
    (a1 a2 a3 a4 a5 : Bool) (u : User) (db1 db2 db3 db4 db5 : DB)
    (hf : db.users.find? (fun x => x.email == email) = some u)
    (h0 : u.failedLoginAttempts = 0) (hl : u.lockedUntil = none)
    (hq1 : bcryptCompare pw1 u.passwordHash = false)
    (hq2 : bcryptCompare pw2 u.passwordHash = false)
    (hq3 : bcryptCompare pw3 u.passwordHash = false)
    (hq4 : bcryptCompare pw4 u.passwordHash = false)
    (hq5 : bcryptCompare pw5 u.passwordHash = false)
    (hd1 : db1 = (login db email pw1 ip t1 a1).2)
    (hd2 : db2 = (login db1 email pw2 ip t2 a2).2)
    (hd3 : db3 = (login db2 email pw3 ip t3 a3).2)
    (hd4 : db4 = (login db3 email pw4 ip t4 a4).2)
    (hd5 : db5 = (login db4 email pw5 ip t5 a5).2) :
    (login db email pw1 ip t1 a1).1 = .error (.unauthorizedError "Invalid credentials") ∧
    (login db1 email pw2 ip t2 a2).1 = .error (.unauthorizedError "Invalid credentials") ∧
    (login db2 email pw3 ip t3 a3).1 = .error (.unauthorizedError "Invalid credentials") ∧
    (login db3 email pw4 ip t4 a4).1 = .error (.unauthorizedError "Invalid credentials") ∧
    (login db4 email pw5 ip t5 a5).1 = .error (.unauthorizedError "Invalid credentials") ∧
    db5.users.find? (fun x => x.email == email) =
      some { u with failedLoginAttempts := 5,
                    lockedUntil := some (t5 + fifteenMinutes) } ∧
    ∀ (t6 : Nat) (pw6 : String) (a6 : Bool), t6 < t5 + fifteenMinutes →
      login db5 email pw6 ip t6 a6 =
        (.error (.unauthorizedError "Account is locked. Please try again later."), db5) := by
  have hlk : u.lockedUntil.any (fun l => decide (t1 < l)) = false := by simp [hl]
  have w1 := login_wrong_password db email pw1 ip t1 a1 u hf hlk hq1
  have f1 := login_wrong_password_find db email pw1 ip t1 a1 u hf hlk hq1
  simp only [h0, hl] at f1
  norm_num at f1
  subst hd1
  have w2 := login_wrong_password _ email pw2 ip t2 a2 _ f1 (by simp) hq2
  have f2 := login_wrong_password_find _ email pw2 ip t2 a2 _ f1 (by simp) hq2
  norm_num at f2
  subst hd2
  have w3 := login_wrong_password _ email pw3 ip t3 a3 _ f2 (by simp) hq3
  have f3 := login_wrong_password_find _ email pw3 ip t3 a3 _ f2 (by simp) hq3
  norm_num at f3
  subst hd3
  have w4 := login_wrong_password _ email pw4 ip t4 a4 _ f3 (by simp) hq4
  have f4 := login_wrong_password_find _ email pw4 ip t4 a4 _ f3 (by simp) hq4
  norm_num at f4
  subst hd4
  have w5 := login_wrong_password _ email pw5 ip t5 a5 _ f4 (by simp) hq5
  have f5 := login_wrong_password_find _ email pw5 ip t5 a5 _ f4 (by simp) hq5
  norm_num at f5
  subst hd5
  refine ⟨by rw [w1], by rw [w2], by rw [w3], by rw [w4], by rw [w5], f5, ?_⟩
  intro t6 pw6 a6 ht6
  exact login_locked _ email pw6 ip t6 (t5 + fifteenMinutes) a6 _ f5 rfl ht6

/-- Witness for `c4_lockout` at the concrete state. -/
theorem c4_witness :
    (login dbActive "a@x.com" "x" none 1 true).1 = .error (.unauthorizedError "Invalid credentials") ∧
    (login lockDb1 "a@x.com" "x" none 2 true).1 = .error (.unauthorizedError "Invalid credentials") ∧
    (login lockDb2 "a@x.com" "x" none 3 true).1 = .error (.unauthorizedError "Invalid credentials") ∧
    (login lockDb3 "a@x.com" "x" none 4 true).1 = .error (.unauthorizedError "Invalid credentials") ∧
    (login lockDb4 "a@x.com" "x" none 5 true).1 = .error (.unauthorizedError "Invalid credentials") ∧
    lockDb5.users.find? (fun x => x.email == "a@x.com") =
      some { baseUser with failedLoginAttempts := 5,
                           lockedUntil := some (5 + fifteenMinutes) } ∧
    ∀ (t6 : Nat) (pw6 : String) (a6 : Bool), t6 < 5 + fifteenMinutes →
      login lockDb5 "a@x.com" pw6 none t6 a6 =
        (.error (.unauthorizedError "Account is locked. Please try again later."), lockDb5) :=
  c4_lockout dbActive "a@x.com" none 1 2 3 4 5 "x" "x" "x" "x" "x"
    true true true true true baseUser lockDb1 lockDb2 lockDb3 lockDb4 lockDb5
    (by decide) (by decide) (by decide) (by decide) (by decide) (by decide)
    (by decide) (by decide) rfl rfl rfl rfl rfl

/-- C9: audit-log writes are best-effort.  For `login` and `register`
(the operations that write audit records) the returned result and every
non-audit component of the state are identical whether the audit insert
succeeds or fails; `refreshToken` and `logout` write no audit record at
all, so the audit log passes through them unchanged. -/
theorem c9_audit_best_effort (db : DB) (email pw : String) (ip : Option String)
    (now : Nat) (dto : RegisterUserDto) (tok : SignedToken) (red : Bool) :
    (login db email pw ip now true).1 = (login db email pw ip now false).1 ∧
    primaryEq (login db email pw ip now true).2 (login db email pw ip now false).2 ∧
    (register db dto now true).1 = (register db dto now false).1 ∧
    primaryEq (register db dto now true).2 (register db dto now false).2 ∧
    (refreshTokenOp db tok now).2.auditLogs = db.auditLogs ∧
    (logout db tok now red).auditLogs = db.auditLogs := by
  refine ⟨?_, ?_, ?_, ?_, ?_, ?_⟩
  · unfold login
    cases hf : db.users.find? (fun x => x.email == email) with
    | none => rfl
    | some u =>
      cases hlk : u.lockedUntil.any (fun l => decide (now < l)) with
      | true => simp [hlk]
      | false =>
        cases hpw : bcryptCompare pw u.passwordHash with
        | false => simp [hlk, hpw]
        | true =>
          by_cases hst : u.status = UserStatus.ACTIVE
          · cases hten : u.tenantId.bind (fun tid => db.tenants.find? (fun t => t.id == tid)) with
            | none => simp [hlk, hpw, hst, hten, loginSuccess, generateTokens]
            | some t =>
              by_cases hts : t.status = TenantStatus.SUSPENDED
              · simp [hlk, hpw, hst, hten, hts]
              · by_cases htc : t.status = TenantStatus.CANCELLED <;>
                  simp [hlk, hpw, hst, hten, hts, htc, loginSuccess, generateTokens]
          · simp [hlk, hpw, hst]
  · unfold login
    cases hf : db.users.find? (fun x => x.email == email) with
    | none => simp [primaryEq]
    | some u =>
      cases hlk : u.lockedUntil.any (fun l => decide (now < l)) with
      | true => simp [hlk, primaryEq]
      | false =>
        cases hpw : bcryptCompare pw u.passwordHash with
        | false => simp [hlk, hpw, primaryEq, auditLog]
        | true =>
          by_cases hst : u.status = UserStatus.ACTIVE
          · cases hten : u.tenantId.bind (fun tid => db.tenants.find? (fun t => t.id == tid)) with
            | none => simp [hlk, hpw, hst, hten, loginSuccess, generateTokens, primaryEq, auditLog]
            | some t =>
              by_cases hts : t.status = TenantStatus.SUSPENDED
              · simp [hlk, hpw, hst, hten, hts, primaryEq]
              · by_cases htc : t.status = TenantStatus.CANCELLED <;>
                  simp [hlk, hpw, hst, hten, hts, htc, loginSuccess, generateTokens, primaryEq, auditLog]
          · simp [hlk, hpw, hst, primaryEq]
  · unfold register
    cases hve : isValidEmail dto.email with
    | false => simp [hve]
    | true =>
      cases hsp : isStrongPassword dto.password with
      | false => simp [hve, hsp]
      | true =>
        cases hex : (db.users.find? (fun x => x.email == dto.email)).isSome with
        | true => simp [hve, hsp, hex]
        | false =>
          cases hsl : (db.tenants.find? (fun t => t.slug == createSlug dto.tenantName)).isSome with
          | true => simp [hve, hsp, hex, hsl]
          | false => simp [hve, hsp, hex, hsl, generateTokens]
  · unfold register
    cases hve : isValidEmail dto.email with
    | false => simp [hve, primaryEq]
    | true =>
      cases hsp : isStrongPassword dto.password with
      | false => simp [hve, hsp, primaryEq]
      | true =>
        cases hex : (db.users.find? (fun x => x.email == dto.email)).isSome with
        | true => simp [hve, hsp, hex, primaryEq]
        | false =>
          cases hsl : (db.tenants.find? (fun t => t.slug == createSlug dto.tenantName)).isSome with
          | true => simp [hve, hsp, hex, hsl, primaryEq]
          | false => simp [hve, hsp, hex, hsl, generateTokens, primaryEq, auditLog]
  · unfold refreshTokenOp
    cases hc : rotateCheck db tok now with
    | error e => rfl
    | ok u => simp [rotateWrite, generateTokens]
  · unfold logout
    cases red <;> simp

end AuthModel
